import Mathlib

/-!
Verification of the DoH/ECH diagnostic worker (src/worker.ts) against its
natural-language specification.

The TypeScript source is shallowly embedded: byte buffers (`Uint8Array`)
become `List Nat`, JavaScript `null`/`undefined` fields become `Option`,
thrown exceptions become `Except String`, and the unbounded `while` loop of
`readDnsName` becomes a recursion on an explicit fuel counter that models the
source's `safety` counter exactly (the source throws once `safety >
message.length`, i.e. after `message.length + 1` iterations; the fuel starts
at `message.length + 1` and the fuel-exhaustion branch is the source's safety
throw).  Network effects are passed in as explicit oracle arguments.
-/

set_option maxHeartbeats 1000000
set_option maxRecDepth 100000

/-- DoH request encodings (source type `DohRequestMode`). -/
inductive DohRequestMode
  | json
  | wire
deriving DecidableEq

/-- Response body classification (source type `DohResponseFormat`). -/
inductive DohResponseFormat
  | json
  | wire
  | text
  | unknown
deriving DecidableEq

/-- Overall A-record check status (source type `DohStatus`); the source
string `"partial_match"` is the constructor `partialMatch`. -/
inductive DohStatus
  | success
  | failure
  | partialMatch
deriving DecidableEq

/-- Big-endian 16-bit read, `DataView.getUint16`.  Call sites in the source
are bounds-guarded; out-of-range bytes read as 0 here. -/
def getU16 (msg : List Nat) (off : Nat) : Nat :=
  msg.getD off 0 * 256 + msg.getD (off + 1) 0

/-- Source `readLabel`: builds a string from `length` bytes starting at
`start` via `String.fromCharCode`. -/
def readLabel (msg : List Nat) (start len : Nat) : String :=
  String.mk ((List.range len).map fun i => Char.ofNat (msg.getD (start + i) 0))

/-- The loop body of source `readDnsName`.  Arguments mirror the source's
mutable state: accumulated `labels`, accumulated `length` (the returned
`bytes_consumed`), the `jumped` flag, and the read cursor `currentOffset`.
The final `fuel` argument models the `safety` counter: the source throws
"DNS 名称解析超出安全限制" when `safety > message.length`, which is exactly
the fuel-0 branch when the fuel starts at `message.length + 1`. -/
def readDnsNameFuel (msg : List Nat) (labels : List String) (len : Nat)
    (jumped : Bool) (cur : Nat) : Nat → Except String (String × Nat)
  | 0 => .error "DNS 名称解析超出安全限制"
  | fuel + 1 =>
    if cur ≥ msg.length then .error "DNS 名称超出报文范围"
    else if msg.getD cur 0 &&& 0xc0 == 0xc0 then
      match msg.get? (cur + 1) with
      | none => .error "DNS 名称指针截断"
      | some nextByte =>
        if (msg.getD cur 0 &&& 0x3f) * 256 + nextByte ≥ msg.length then
          .error "DNS 名称指针越界"
        else
          readDnsNameFuel msg labels (if jumped then len else len + 2) true
            ((msg.getD cur 0 &&& 0x3f) * 256 + nextByte) fuel
    else if msg.getD cur 0 == 0 then
      .ok (String.intercalate "." labels, if jumped then len else len + 1)
    else if msg.getD cur 0 > 63 then .error "DNS 标签长度非法"
    else if cur + 1 + msg.getD cur 0 > msg.length then .error "DNS 标签超出报文范围"
    else
      readDnsNameFuel msg (labels ++ [readLabel msg (cur + 1) (msg.getD cur 0)])
        (if jumped then len else len + 1 + msg.getD cur 0) jumped
        (cur + 1 + msg.getD cur 0) fuel

/-- Source `readDnsName(message, offset)`: returns the decoded name and the
number of bytes consumed at the original offset. -/
def readDnsName (msg : List Nat) (offset : Nat) : Except String (String × Nat) :=
  readDnsNameFuel msg [] 0 false offset (msg.length + 1)

/-- A wire buffer containing a name-pointer cycle: bytes 0-1 are a
compression pointer to offset 2, bytes 2-3 a compression pointer back to
offset 0. -/
def cycleBuf : List Nat := [0xc0, 2, 0xc0, 0]

theorem readDnsNameFuel_cycle (fuel : Nat) :
    readDnsNameFuel cycleBuf [] 2 true 0 fuel = .error "DNS 名称解析超出安全限制" ∧
    readDnsNameFuel cycleBuf [] 2 true 2 fuel = .error "DNS 名称解析超出安全限制" := by
  induction fuel with
  | zero => exact ⟨rfl, rfl⟩
  | succ n ih =>
    refine ⟨?_, ?_⟩
    · have h : readDnsNameFuel cycleBuf [] 2 true 0 (n + 1) =
          readDnsNameFuel cycleBuf [] 2 true 2 n := rfl
      rw [h]; exact ih.2
    · have h : readDnsNameFuel cycleBuf [] 2 true 2 (n + 1) =
          readDnsNameFuel cycleBuf [] 2 true 0 n := rfl
      rw [h]; exact ih.1

/-- C1: `readDnsName` terminates for every buffer and offset: the loop runs
on a fuel of `msg.length + 1` iterations, the embedding of the source's
`safety` cap at the buffer length.  On a buffer containing a name-pointer
cycle (pointer at 0 → pointer at 2 → pointer at 0), no amount of fuel ever
lets the loop finish normally — every fuel value yields the malformed-name
safety error (so the unguarded loop would spin forever) — and the actual
`readDnsName` returns that error after the bounded number of steps. -/
theorem readDnsName_pointer_cycle_bounded :
    (∀ msg offset, readDnsName msg offset =
        readDnsNameFuel msg [] 0 false offset (msg.length + 1)) ∧
    (∀ fuel, readDnsNameFuel cycleBuf [] 0 false 0 fuel =
        .error "DNS 名称解析超出安全限制") ∧
    readDnsName cycleBuf 0 = .error "DNS 名称解析超出安全限制" := by
  refine ⟨fun _ _ => rfl, ?_, rfl⟩
  intro fuel
  match fuel with
  | 0 => rfl
  | n + 1 =>
    have h : readDnsNameFuel cycleBuf [] 0 false 0 (n + 1) =
        readDnsNameFuel cycleBuf [] 2 true 2 n := rfl
    rw [h]; exact (readDnsNameFuel_cycle n).2

theorem readDnsNameFuel_jumped_frozen (msg : List Nat) (len : Nat) :
    ∀ fuel labels cur r,
      readDnsNameFuel msg labels len true cur fuel = .ok r → r.2 = len := by
  intro fuel
  induction fuel with
  | zero => intro labels cur r h; exact absurd h (by simp [readDnsNameFuel])
  | succ n ih =>
    intro labels cur r h
    rw [readDnsNameFuel] at h
    by_cases h1 : cur ≥ msg.length
    · rw [if_pos h1] at h; exact absurd h (by simp)
    · rw [if_neg h1] at h
      by_cases h2 : (msg.getD cur 0 &&& 0xc0 == 0xc0) = true
      · rw [if_pos h2] at h
        cases hg : msg.get? (cur + 1) with
        | none => simp only [hg] at h; exact absurd h (by simp)
        | some nb =>
          simp only [hg] at h
          by_cases h3 : (msg.getD cur 0 &&& 0x3f) * 256 + nb ≥ msg.length
          · rw [if_pos h3] at h; exact absurd h (by simp)
          · rw [if_neg h3] at h; exact ih _ _ _ h
      · rw [if_neg h2] at h
        by_cases h4 : (msg.getD cur 0 == 0) = true
        · rw [if_pos h4] at h; cases h; simp
        · rw [if_neg h4] at h
          by_cases h5 : msg.getD cur 0 > 63
          · rw [if_pos h5] at h; exact absurd h (by simp)
          · rw [if_neg h5] at h
            by_cases h6 : cur + 1 + msg.getD cur 0 > msg.length
            · rw [if_pos h6] at h; exact absurd h (by simp)
            · rw [if_neg h6] at h; exact ih _ _ _ h

/-- Buffer for the C8 witness: an uncompressed name "abc" at offset 0,
and at offset 5 a compression pointer back to offset 0. -/
def w8msg : List Nat := [3, 97, 98, 99, 0, 0xc0, 0]

/-- C8: `bytes_consumed` counts only bytes on the original traversal path
before the first compression-pointer jump.  First conjunct: once the loop
has jumped (`jumped = true`), the final reported length is exactly the
length accumulated so far — bytes read after a jump contribute nothing.
Second conjunct: when decoding starts directly on a compression pointer,
the reported `bytes_consumed` is exactly the 2 bytes of the pointer. -/
theorem readDnsName_bytes_consumed (msg : List Nat) :
    (∀ fuel labels len cur r,
      readDnsNameFuel msg labels len true cur fuel = .ok r → r.2 = len) ∧
    (∀ offset r, offset < msg.length →
      (msg.getD offset 0) &&& 0xc0 = 0xc0 →
      readDnsName msg offset = .ok r → r.2 = 2) := by
  refine ⟨fun fuel labels len => readDnsNameFuel_jumped_frozen msg len fuel labels, ?_⟩
  intro offset r hlt hptr h
  rw [readDnsName] at h
  rw [readDnsNameFuel] at h
  rw [if_neg (by omega)] at h
  rw [if_pos (by simp only [beq_iff_eq]; exact hptr)] at h
  cases hg : msg.get? (offset + 1) with
  | none => simp only [hg] at h; exact absurd h (by simp)
  | some nb =>
    simp only [hg] at h
    by_cases h3 : (msg.getD offset 0 &&& 0x3f) * 256 + nb ≥ msg.length
    · rw [if_pos h3] at h; exact absurd h (by simp)
    · rw [if_neg h3] at h
      exact readDnsNameFuel_jumped_frozen msg 2 _ _ _ _ h

/-- Witness for C8: decoding `w8msg` at offset 5 (a pointer to the name
"abc" at offset 0) reports exactly 2 consumed bytes. -/
theorem readDnsName_bytes_consumed_witness :
    (("abc", 2) : String × Nat).2 = 2 :=
  (readDnsName_bytes_consumed w8msg).2 5 ("abc", 2) (by decide) (by decide) rfl

/-- The base64 alphabet used by `btoa`. -/
def base64Chars : List Char :=
  "ABCDEFGHIJKLMNOPQRSTUVWXYZabcdefghijklmnopqrstuvwxyz0123456789+/".toList

/-- One base64 digit. -/
def b64digit (n : Nat) : Char := base64Chars.getD n 'A'

/-- Source `bytesToBase64` (a `btoa` of the byte string): standard base64
with `=` padding. -/
def bytesToBase64 : List Nat → String
  | [] => ""
  | [a] =>
    String.mk [b64digit (a / 4), b64digit (a % 4 * 16)] ++ "=="
  | [a, b] =>
    String.mk [b64digit (a / 4), b64digit (a % 4 * 16 + b / 16),
      b64digit (b % 16 * 4)] ++ "="
  | a :: b :: c :: rest =>
    String.mk [b64digit (a / 4), b64digit (a % 4 * 16 + b / 16),
      b64digit (b % 16 * 4 + c / 64), b64digit (c % 64)] ++ bytesToBase64 rest

/-- Insertion-order deduplication with an accumulator of already-seen
elements: the iteration order of a JavaScript `Set` built from a list
(`Array.from(new Set(xs))`). -/
def jsDedupAux [BEq α] (seen : List α) : List α → List α
  | [] => []
  | x :: xs => if seen.contains x then jsDedupAux seen xs
               else x :: jsDedupAux (x :: seen) xs

/-- `Array.from(new Set(xs))`. -/
def jsDedup [BEq α] (xs : List α) : List α := jsDedupAux [] xs

/-- `Set.add` on a list kept in insertion order (`seen.add(ip)`). -/
def jsSetAdd [BEq α] (seen : List α) (x : α) : List α :=
  if seen.contains x then seen else seen ++ [x]

/-- `message.subarray(start, start + len)`. -/
def sliceBytes (msg : List Nat) (start len : Nat) : List Nat :=
  (msg.drop start).take len

/-- Source `formatIpv4`. -/
def formatIpv4 (bytes : List Nat) : String :=
  toString (bytes.getD 0 0) ++ "." ++ toString (bytes.getD 1 0) ++ "." ++
    toString (bytes.getD 2 0) ++ "." ++ toString (bytes.getD 3 0)

/-- JavaScript `n.toString(16)` for a Uint16 value (lowercase hex). -/
def natToHex (n : Nat) : String := String.mk (Nat.toDigits 16 n)

/-- Source `formatIpv6`: 8 colon-separated lowercase hex groups. -/
def formatIpv6 (bytes : List Nat) : String :=
  String.intercalate ":" ((List.range 8).map fun i =>
    natToHex (bytes.getD (i * 2) 0 * 256 + bytes.getD (i * 2 + 1) 0))

/-- The `while (cursor < rdlength)` parameter loop of source
`parseHttpsSvcbRecord`.  State mirrors the source's mutable `params`,
`hasEch`, `echBase64`; the cursor advances by at least 4 each iteration, so
a fuel of `rdlength + 1` (passed by `parseHttpsSvcbRecord`) can never be
exhausted before the loop's own exit conditions fire. -/
def svcbParams (msg : List Nat) (offset rdlength : Nat) (cursor : Nat)
    (params : List String) (hasEch : Bool) (echB64 : Option String) :
    Nat → List String × Bool × Option String
  | 0 => (params, hasEch, echB64)
  | fuel + 1 =>
    if cursor < rdlength then
      if cursor + 4 > rdlength then (params, hasEch, echB64)
      else if cursor + 4 + getU16 msg (offset + cursor + 2) > rdlength then
        (params, hasEch, echB64)
      else
        svcbParams msg offset rdlength
          (cursor + 4 + getU16 msg (offset + cursor + 2))
          (params ++ ["key" ++ toString (getU16 msg (offset + cursor)) ++ "(" ++
            toString (getU16 msg (offset + cursor + 2)) ++ "B)"])
          (if getU16 msg (offset + cursor) == 5 then true else hasEch)
          (if getU16 msg (offset + cursor) == 5 then
            some (bytesToBase64 (sliceBytes msg (offset + cursor + 4)
              (getU16 msg (offset + cursor + 2))))
          else echB64) fuel
    else (params, hasEch, echB64)

/-- The sequence of `(key, valueLength, valueBytes)` triples the parameter
loop consumes, defined by the same traversal; used to state what `has_ech`
and the attached base64 value are in terms of the consumed triples. -/
def svcbTriples (msg : List Nat) (offset rdlength : Nat) (cursor : Nat) :
    Nat → List (Nat × Nat × List Nat)
  | 0 => []
  | fuel + 1 =>
    if cursor < rdlength then
      if cursor + 4 > rdlength then []
      else if cursor + 4 + getU16 msg (offset + cursor + 2) > rdlength then []
      else
        (getU16 msg (offset + cursor), getU16 msg (offset + cursor + 2),
          sliceBytes msg (offset + cursor + 4) (getU16 msg (offset + cursor + 2))) ::
          svcbTriples msg offset rdlength
            (cursor + 4 + getU16 msg (offset + cursor + 2)) fuel
    else []

/-- The `params` display entry for one consumed triple. -/
def svcbParamDescr (t : Nat × Nat × List Nat) : String :=
  "key" ++ toString t.1 ++ "(" ++ toString t.2.1 ++ "B)"

/-- The last-written `echBase64` after consuming a list of triples,
starting from `e0` (each key-5 triple overwrites it). -/
def svcbEchFold (ts : List (Nat × Nat × List Nat)) (e0 : Option String) :
    Option String :=
  ts.foldl (fun acc t => if t.1 == 5 then some (bytesToBase64 t.2.2) else acc) e0

theorem svcbParams_eq_triples (msg : List Nat) (offset rdlength : Nat) :
    ∀ fuel cursor params hasEch echB64,
      svcbParams msg offset rdlength cursor params hasEch echB64 fuel =
        (params ++ (svcbTriples msg offset rdlength cursor fuel).map svcbParamDescr,
         hasEch || (svcbTriples msg offset rdlength cursor fuel).any (fun t => t.1 == 5),
         svcbEchFold (svcbTriples msg offset rdlength cursor fuel) echB64) := by
  intro fuel
  induction fuel with
  | zero => intro cursor params hasEch echB64; simp [svcbParams, svcbTriples, svcbEchFold]
  | succ n ih =>
    intro cursor params hasEch echB64
    rw [svcbParams, svcbTriples]
    by_cases h1 : cursor < rdlength
    · rw [if_pos h1, if_pos h1]
      by_cases h2 : cursor + 4 > rdlength
      · rw [if_pos h2, if_pos h2]; simp [svcbEchFold]
      · rw [if_neg h2, if_neg h2]
        by_cases h3 : cursor + 4 + getU16 msg (offset + cursor + 2) > rdlength
        · rw [if_pos h3, if_pos h3]; simp [svcbEchFold]
        · rw [if_neg h3, if_neg h3]
          rw [ih]
          by_cases h5 : getU16 msg (offset + cursor) = 5
          · simp [h5, svcbParamDescr, svcbEchFold]
          · have h5b : (getU16 msg (offset + cursor) == 5) = false := by simp [h5]
            simp [h5, h5b, svcbParamDescr, svcbEchFold]
    · rw [if_neg h1, if_neg h1]; simp [svcbEchFold]

/-- Result of source `parseHttpsSvcbRecord`. -/
structure SvcbParse where
  hasEch : Bool
  description : String
deriving DecidableEq

/-- Source `parseHttpsSvcbRecord(message, offset, rdlength)`.  The embedded
target name is read through `readDnsName` from the full message (so its
errors propagate, matching the source where they are thrown and caught by
`findHttpsRecordInDnsMessage`).  The parameter loop runs with fuel
`rdlength + 1`, which the loop (advancing its cursor by at least 4 per
iteration) can never exhaust. -/
def parseHttpsSvcbRecord (msg : List Nat) (offset rdlength : Nat) :
    Except String SvcbParse :=
  if offset + rdlength > msg.length then .ok ⟨false, ""⟩
  else if rdlength < 4 then .ok ⟨false, ""⟩
  else do
    let priority := getU16 msg offset
    let nameInfo ← readDnsName msg (offset + 2)
    let cursor := 2 + nameInfo.2
    let targetName := if nameInfo.1 = "" then "." else nameInfo.1
    let pr := svcbParams msg offset rdlength cursor [] false none (rdlength + 1)
    let base := "priority=" ++ toString priority ++ " target=" ++ targetName
    let withParams :=
      if pr.1 ≠ [] then base ++ " params=[" ++ String.intercalate ", " pr.1 ++ "]"
      else base
    let descr :=
      if pr.2.1 then
        if pr.2.2.getD "" ≠ "" then
          withParams ++ " echconfig(base64)=" ++ pr.2.2.getD ""
        else withParams ++ " echconfig"
      else withParams
    .ok ⟨pr.2.1, descr⟩

/-- Result of source `findHttpsRecordInDnsMessage`. -/
structure HttpsFindResult where
  found : Bool
  record : Option String
  error : Option String
deriving DecidableEq

/-- The question-skipping loop shared by the wire-message walkers
(`for i < qdcount: readDnsName; offset += nameInfo.length + 4`). -/
def skipQuestions (msg : List Nat) (offset : Nat) : Nat → Except String Nat
  | 0 => .ok offset
  | n + 1 => do
    let nameInfo ← readDnsName msg offset
    skipQuestions msg (offset + nameInfo.2 + 4) n

/-- The answer-record loop of source `findHttpsRecordInDnsMessage`,
recursing on the remaining `ancount` with the `fallbackRecord`
accumulator. -/
def findHttpsLoop (msg : List Nat) (offset : Nat) (fallback : Option String) :
    Nat → Except String HttpsFindResult
  | 0 => .ok ⟨false, fallback, none⟩
  | n + 1 => do
    let nameInfo ← readDnsName msg offset
    if offset + nameInfo.2 + 10 > msg.length then .ok ⟨false, fallback, none⟩
    else if offset + nameInfo.2 + 10 + getU16 msg (offset + nameInfo.2 + 8) >
        msg.length then .ok ⟨false, fallback, none⟩
    else if getU16 msg (offset + nameInfo.2) == 65 then do
      let pr ← parseHttpsSvcbRecord msg (offset + nameInfo.2 + 10)
        (getU16 msg (offset + nameInfo.2 + 8))
      if pr.hasEch then .ok ⟨true, some pr.description, none⟩
      else
        findHttpsLoop msg
          (offset + nameInfo.2 + 10 + getU16 msg (offset + nameInfo.2 + 8))
          (if fallback = none ∧ pr.description ≠ "" then some pr.description
           else fallback) n
    else
      findHttpsLoop msg
        (offset + nameInfo.2 + 10 + getU16 msg (offset + nameInfo.2 + 8))
        fallback n

/-- Source `findHttpsRecordInDnsMessage(buffer)`: the surrounding
`try`/`catch` turns any thrown decode error into `{found:false, error}`. -/
def findHttpsRecordInDnsMessage (msg : List Nat) : HttpsFindResult :=
  if msg.length < 12 then ⟨false, none, some "DNS 报文过短。"⟩
  else
    match (do
      let off ← skipQuestions msg 12 (getU16 msg 4)
      findHttpsLoop msg off none (getU16 msg 6) :
        Except String HttpsFindResult) with
    | .ok r => r
    | .error e => ⟨false, none, some e⟩

/-- The answer-record loop of source `extractIpsFromDnsMessage`, collecting
A/AAAA addresses into the insertion-ordered set `seen`. -/
def collectIps (msg : List Nat) (offset : Nat) (seen : List String) :
    Nat → Except String (List String)
  | 0 => .ok seen
  | n + 1 => do
    let nameInfo ← readDnsName msg offset
    if offset + nameInfo.2 + 10 > msg.length then .ok seen
    else if offset + nameInfo.2 + 10 + getU16 msg (offset + nameInfo.2 + 8) >
        msg.length then .ok seen
    else
      collectIps msg
        (offset + nameInfo.2 + 10 + getU16 msg (offset + nameInfo.2 + 8))
        (if getU16 msg (offset + nameInfo.2) == 1 &&
            getU16 msg (offset + nameInfo.2 + 8) == 4 then
          jsSetAdd seen (formatIpv4 (sliceBytes msg (offset + nameInfo.2 + 10) 4))
        else if getU16 msg (offset + nameInfo.2) == 28 &&
            getU16 msg (offset + nameInfo.2 + 8) == 16 then
          jsSetAdd seen (formatIpv6 (sliceBytes msg (offset + nameInfo.2 + 10) 16))
        else seen) n

/-- Source `extractIpsFromDnsMessage(buffer)`; thrown name-decode errors
propagate to the caller (`performDohRequest` catches them). -/
def extractIpsFromDnsMessage (msg : List Nat) : Except String (List String) :=
  if msg.length < 12 then .ok []
  else do
    let off ← skipQuestions msg 12 (getU16 msg 4)
    collectIps msg off [] (getU16 msg 6)

theorem exceptBind_ok (a : α) (f : α → Except ε β) :
    (Except.ok a >>= f : Except ε β) = f a := rfl

theorem exceptBind_err (e : ε) (f : α → Except ε β) :
    (Except.error e >>= f : Except ε β) = .error e := rfl

theorem findHttpsLoop_keeps_fallback (msg : List Nat) (d : String) :
    ∀ n offset r, findHttpsLoop msg offset (some d) n = .ok r →
      r.found = true ∨ r.record = some d := by
  intro n
  induction n with
  | zero =>
    intro offset r h
    rw [findHttpsLoop] at h
    cases h
    exact Or.inr rfl
  | succ n ih =>
    intro offset r h
    rw [findHttpsLoop] at h
    cases hr : readDnsName msg offset with
    | error e => rw [hr, exceptBind_err] at h; exact absurd h (by simp)
    | ok nameInfo =>
      rw [hr, exceptBind_ok] at h
      by_cases h1 : offset + nameInfo.2 + 10 > msg.length
      · rw [if_pos h1] at h; cases h; exact Or.inr rfl
      · rw [if_neg h1] at h
        by_cases h2 : offset + nameInfo.2 + 10 + getU16 msg (offset + nameInfo.2 + 8) >
            msg.length
        · rw [if_pos h2] at h; cases h; exact Or.inr rfl
        · rw [if_neg h2] at h
          by_cases h3 : (getU16 msg (offset + nameInfo.2) == 65) = true
          · rw [if_pos h3] at h
            cases hp : parseHttpsSvcbRecord msg (offset + nameInfo.2 + 10)
                (getU16 msg (offset + nameInfo.2 + 8)) with
            | error e => rw [hp, exceptBind_err] at h; exact absurd h (by simp)
            | ok pr =>
              rw [hp, exceptBind_ok] at h
              by_cases h4 : pr.hasEch = true
              · rw [if_pos h4] at h; cases h; exact Or.inl rfl
              · rw [if_neg h4, if_neg (by simp)] at h
                exact ih _ _ h
          · rw [if_neg h3] at h
            exact ih _ _ h

/-- Synthetic HTTPS rdata: priority=1, empty target name, one parameter
key=5 with value bytes 0xDE 0xAD. -/
def echRData : List Nat := [0, 1, 0, 0, 5, 0, 2, 0xde, 0xad]

/-- A full DNS message with one answer record of type 65 carrying
`echRData` (qdcount = 0, ancount = 1). -/
def echMsg : List Nat :=
  [0, 0, 0, 0, 0, 0, 0, 1, 0, 0, 0, 0,
   0, 0, 65, 0, 1, 0, 0, 0, 0, 0, 9] ++ echRData

/-- A DNS message with two HTTPS answer records: the first with
`rdlength = 0` (whose SVCB parse yields an empty description), the second a
well-formed non-ECH record with description "priority=1 target=.". -/
def cexHttpsMsg : List Nat :=
  [0, 0, 0, 0, 0, 0, 0, 2, 0, 0, 0, 0,
   0, 0, 65, 0, 1, 0, 0, 0, 0, 0, 0,
   0, 0, 65, 0, 1, 0, 0, 0, 0, 0, 4, 0, 1, 0, 0]

/-- C6 (amended): SVCB decoding consumes `(key, length, value)` triples
until `rdlength` is exhausted; `has_ech` is set exactly when some consumed
triple has key 5, and the attached base64 string is the base64 encoding of
the (last) key-5 triple's raw value bytes.  The concrete rdata with
priority=1, empty target, and parameter key=5 value=0xDEAD decodes to
`has_ech = true` with base64 "3q0=".  Across a message, the answer loop
returns the first record whose parse sets `has_ech` (with its description),
and once a fallback description is recorded it is never replaced — so the
non-ECH fallback is the first HTTPS record whose parse yields a non-empty
description (a record whose rdata is shorter than 4 bytes parses to an
empty description and is skipped as fallback, which is the one deviation
from the claim as stated). -/
theorem parseHttpsSvcb_ech_detection :
    (∀ msg offset rdlength fuel cursor,
      ((svcbParams msg offset rdlength cursor [] false none fuel).2.1 = true ↔
        ∃ t ∈ svcbTriples msg offset rdlength cursor fuel, t.1 = 5)) ∧
    (∀ msg offset rdlength fuel cursor,
      (svcbParams msg offset rdlength cursor [] false none fuel).2.2 =
        svcbEchFold (svcbTriples msg offset rdlength cursor fuel) none) ∧
    parseHttpsSvcbRecord echRData 0 9 =
      .ok ⟨true, "priority=1 target=. params=[key5(2B)] echconfig(base64)=3q0="⟩ ∧
    (∀ msg offset fb n name nl pr,
      readDnsName msg offset = .ok (name, nl) →
      ¬ offset + nl + 10 > msg.length →
      ¬ offset + nl + 10 + getU16 msg (offset + nl + 8) > msg.length →
      getU16 msg (offset + nl) = 65 →
      parseHttpsSvcbRecord msg (offset + nl + 10) (getU16 msg (offset + nl + 8)) =
        .ok pr →
      pr.hasEch = true →
      findHttpsLoop msg offset fb (n + 1) = .ok ⟨true, some pr.description, none⟩) ∧
    (∀ msg d n offset r, findHttpsLoop msg offset (some d) n = .ok r →
      r.found = true ∨ r.record = some d) := by
  refine ⟨?_, ?_, rfl, ?_, fun msg d n => findHttpsLoop_keeps_fallback msg d n⟩
  · intro msg offset rdlength fuel cursor
    rw [svcbParams_eq_triples]
    simp
  · intro msg offset rdlength fuel cursor
    rw [svcbParams_eq_triples]
  · intro msg offset fb n name nl pr hr h1 h2 ht hp he
    rw [findHttpsLoop, hr, exceptBind_ok]
    show (if offset + (name, nl).2 + 10 > msg.length then _ else _) = _
    rw [if_neg h1]
    rw [if_neg h2]
    rw [if_pos (by simp [ht])]
    rw [hp, exceptBind_ok]
    rw [if_pos he]

/-- Witness for C6: on `echMsg` the answer loop immediately returns the
ECH-bearing record's description. -/
theorem parseHttpsSvcb_ech_detection_witness :
    findHttpsLoop echMsg 12 none 1 =
      .ok ⟨true, some "priority=1 target=. params=[key5(2B)] echconfig(base64)=3q0=",
        none⟩ :=
  parseHttpsSvcb_ech_detection.2.2.2.1 echMsg 12 none 0 "" 1
    ⟨true, "priority=1 target=. params=[key5(2B)] echconfig(base64)=3q0="⟩
    rfl (by decide) (by decide) (by decide) rfl rfl

/-- Counterexample for C6 as literally stated: in `cexHttpsMsg` the first
HTTPS record seen (rdata at offset 23, `rdlength = 0`) parses to an empty
description, and the returned non-ECH fallback is the second record's
description instead of the first record's. -/
theorem parseHttpsSvcb_ech_detection_counterexample :
    findHttpsRecordInDnsMessage cexHttpsMsg =
      ⟨false, some "priority=1 target=.", none⟩ ∧
    parseHttpsSvcbRecord cexHttpsMsg 23 0 = .ok ⟨false, ""⟩ ∧
    some "priority=1 target=." ≠ some "" :=
  ⟨rfl, rfl, by decide⟩

/-- Minimal JSON value tree, the result of `response.json()`. -/
inductive JVal
  | null
  | bool (b : Bool)
  | num (q : Rat)
  | str (s : String)
  | arr (elems : List JVal)
  | obj (fields : List (String × JVal))

/-- The opaque `raw` payload attached to attempt results: a parsed JSON
body, JavaScript `null`, a text snippet, or the `createDnsMessageRaw`
object (format "dns-message", content type, base64 of the bytes). -/
inductive RawPayload
  | jsonVal (j : JVal)
  | nullRaw
  | textSnippet (s : String)
  | dnsMessage (contentType : Option String) (base64 : String)

/-- Source `DohBaseResult`: the common fields of per-mode attempts and
per-provider summaries. -/
structure DohBaseResult where
  status : Option Nat
  ok : Bool
  ips : List String
  latency_ms : Option Nat
  response_format : Option DohResponseFormat
  content_type : Option String
  raw : Option RawPayload
  error : Option String

/-- Source `DohProviderModeResult`: one encoding attempt. -/
structure DohProviderModeResult extends DohBaseResult where
  mode : DohRequestMode

/-- Source `DohProviderResult`: the reported per-provider outcome. -/
structure DohProviderResult extends DohBaseResult where
  attempted_formats : List DohRequestMode
  mode_results : List DohProviderModeResult

/-- Source `EchProviderResult` (its optional `mode_results` field is never
assigned anywhere in the source and is omitted). -/
structure EchProviderResult where
  found : Bool
  record : Option String
  status : Option Nat
  latency_ms : Option Nat
  attempted_formats : List DohRequestMode
  response_format : Option DohResponseFormat
  content_type : Option String
  raw : Option RawPayload
  error : Option String

/-- `results.map(item => item.response_format).find(f => f && f !== "unknown")`:
first present, non-unknown response shape in forward order. -/
def forwardFormat (fmts : List (Option DohResponseFormat)) :
    Option DohResponseFormat :=
  fmts.findSome? fun o =>
    match o with
    | some f => if f = .unknown then none else some f
    | none => none

/-- `results.map(item => item.content_type).find(Boolean)`: first present,
non-empty content type in forward order. -/
def forwardContentType (cts : List (Option String)) : Option String :=
  cts.findSome? fun o =>
    match o with
    | some s => if s = "" then none else some s
    | none => none

/-- `errors.filter(Boolean)` then `join(" | ")` with a default when no
non-empty error string is present. -/
def joinedErrors (errs : List String) (dflt : String) : String :=
  if (errs.filter (fun e => e ≠ "")).isEmpty then dflt
  else String.intercalate " | " (errs.filter (fun e => e ≠ ""))

/-- Source `combineDohFailures(results)`. -/
def combineDohFailures (results : List DohProviderModeResult) : DohProviderResult :=
  match results.getLast? with
  | none =>
    { status := none, ok := false, ips := [], latency_ms := none,
      response_format := some .unknown, content_type := none, raw := none,
      error := some "DoH 查询失败。", attempted_formats := [], mode_results := [] }
  | some last =>
    { status :=
        match last.status with
        | some s => some s
        | none => results.reverse.findSome? (fun item => item.status),
      ok := false,
      ips := jsDedup ((results.map (fun item => item.ips)).flatten),
      latency_ms :=
        match last.latency_ms with
        | some l => some l
        | none => results.reverse.findSome? (fun item => item.latency_ms),
      response_format :=
        if last.response_format = none ∨ last.response_format = some .unknown then
          some ((forwardFormat (results.map (fun item => item.response_format))).getD
            .unknown)
        else last.response_format,
      content_type :=
        if last.content_type.getD "" = "" then
          forwardContentType (results.map (fun item => item.content_type))
        else last.content_type,
      raw := last.raw,
      error := some (joinedErrors (results.filterMap (fun item => item.error))
        "DoH 查询失败。"),
      attempted_formats := results.map (fun item => item.mode),
      mode_results := results }

/-- Source `combineEchFailures(results)`.  The source is only ever called
with a non-empty list; the empty case (where the JS `{...undefined}` spread
would produce a degenerate object) is modelled as an all-empty failure. -/
def combineEchFailures (results : List EchProviderResult) : EchProviderResult :=
  match results.getLast? with
  | none =>
    { found := false, record := none, status := none, latency_ms := none,
      attempted_formats := [], response_format := none, content_type := none,
      raw := none, error := some "HTTPS 记录查询失败。" }
  | some last =>
    { found := results.any (fun item => item.found),
      record := results.findSome? (fun item =>
        match item.record with
        | some s => if s = "" then none else some s
        | none => none),
      status :=
        match last.status with
        | some s => some s
        | none => results.reverse.findSome? (fun item => item.status),
      latency_ms :=
        match last.latency_ms with
        | some l => some l
        | none => results.reverse.findSome? (fun item => item.latency_ms),
      attempted_formats :=
        jsDedup ((results.map (fun item => item.attempted_formats)).flatten),
      response_format :=
        if last.response_format = none ∨ last.response_format = some .unknown then
          match forwardFormat (results.map (fun item => item.response_format)) with
          | some f => some f
          | none => last.response_format
        else last.response_format,
      content_type :=
        if last.content_type.getD "" = "" then
          forwardContentType (results.map (fun item => item.content_type))
        else last.content_type,
      raw := last.raw,
      error := some (joinedErrors (results.filterMap (fun item => item.error))
        "HTTPS 记录查询失败。") }

theorem backScanHead {α β : Type} (l : List α) (f : α → Option β) (a : α) (b : β)
    (h : l.getLast? = some a) (hf : f a = some b) :
    l.reverse.findSome? f = some b := by
  have hh : l.reverse.head? = some a := by rw [List.head?_reverse, h]
  cases hrev : l.reverse with
  | nil => rw [hrev] at hh; exact absurd hh (by simp)
  | cons x t =>
    rw [hrev] at hh
    injection hh with hh
    subst hh
    rw [List.findSome?_cons, hf]

/-- The claim's wording of the merged response shape: the first
non-`unknown` shape across all attempts in forward order (for comparison
against what `combineDohFailures` actually computes). -/
def claimForwardShape (rs : List DohProviderModeResult) :
    Option DohResponseFormat :=
  forwardFormat (rs.map fun item => item.response_format)

/-- C7 (amended): for a non-empty list of failed attempts, the merged
result's `status` and `latency` are the first non-null value scanning from
the last attempt backward; the `response_shape` is the LAST attempt's shape
when present and non-unknown and only otherwise the first non-unknown shape
in forward order; the `content_type` is the LAST attempt's when present and
non-empty and only otherwise the first present non-empty one in forward
order; and the error is all non-empty attempt error strings joined with
" | ", or the mode-specific generic default when none is present.  (The
deviation from the claim as stated: shape and content type prefer the last
attempt, not the forward-first one.)  Both `combineDohFailures` and
`combineEchFailures` are covered. -/
theorem combineFailures_merge_rules
    (rs : List DohProviderModeResult) (es : List EchProviderResult)
    (lastD : DohProviderModeResult) (lastE : EchProviderResult)
    (hD : rs.getLast? = some lastD) (hE : es.getLast? = some lastE) :
    ((combineDohFailures rs).status =
      rs.reverse.findSome? (fun item => item.status)) ∧
    ((combineDohFailures rs).latency_ms =
      rs.reverse.findSome? (fun item => item.latency_ms)) ∧
    (∀ f, lastD.response_format = some f → f ≠ .unknown →
      (combineDohFailures rs).response_format = some f) ∧
    (lastD.response_format = none ∨ lastD.response_format = some .unknown →
      (combineDohFailures rs).response_format =
        some ((forwardFormat (rs.map fun item => item.response_format)).getD
          .unknown)) ∧
    (∀ s, lastD.content_type = some s → s ≠ "" →
      (combineDohFailures rs).content_type = some s) ∧
    (lastD.content_type.getD "" = "" →
      (combineDohFailures rs).content_type =
        forwardContentType (rs.map fun item => item.content_type)) ∧
    ((combineDohFailures rs).error =
      some (joinedErrors (rs.filterMap fun item => item.error) "DoH 查询失败。")) ∧
    ((combineEchFailures es).status =
      es.reverse.findSome? (fun item => item.status)) ∧
    ((combineEchFailures es).latency_ms =
      es.reverse.findSome? (fun item => item.latency_ms)) ∧
    (∀ f, lastE.response_format = some f → f ≠ .unknown →
      (combineEchFailures es).response_format = some f) ∧
    (∀ s, lastE.content_type = some s → s ≠ "" →
      (combineEchFailures es).content_type = some s) ∧
    (lastE.content_type.getD "" = "" →
      (combineEchFailures es).content_type =
        forwardContentType (es.map fun item => item.content_type)) ∧
    ((combineEchFailures es).error =
      some (joinedErrors (es.filterMap fun item => item.error)
        "HTTPS 记录查询失败。")) := by
  refine ⟨?_, ?_, ?_, ?_, ?_, ?_, ?_, ?_, ?_, ?_, ?_, ?_, ?_⟩
  · simp only [combineDohFailures, hD]
    cases hs : lastD.status with
    | none => rfl
    | some s => exact (backScanHead rs (fun item => item.status) lastD s hD hs).symm
  · simp only [combineDohFailures, hD]
    cases hs : lastD.latency_ms with
    | none => rfl
    | some s => exact (backScanHead rs (fun item => item.latency_ms) lastD s hD hs).symm
  · intro f hf hne
    simp only [combineDohFailures, hD]
    rw [if_neg (by rw [hf]; simpa using hne)]
    exact hf
  · intro h
    simp only [combineDohFailures, hD]
    rw [if_pos h]
  · intro s hs hne
    simp only [combineDohFailures, hD]
    rw [if_neg (by rw [hs]; simpa using hne)]
    exact hs
  · intro h
    simp only [combineDohFailures, hD]
    rw [if_pos h]
  · simp only [combineDohFailures, hD]
  · simp only [combineEchFailures, hE]
    cases hs : lastE.status with
    | none => rfl
    | some s => exact (backScanHead es (fun item => item.status) lastE s hE hs).symm
  · simp only [combineEchFailures, hE]
    cases hs : lastE.latency_ms with
    | none => rfl
    | some s => exact (backScanHead es (fun item => item.latency_ms) lastE s hE hs).symm
  · intro f hf hne
    simp only [combineEchFailures, hE]
    rw [if_neg (by rw [hf]; simpa using hne)]
    exact hf
  · intro s hs hne
    simp only [combineEchFailures, hE]
    rw [if_neg (by rw [hs]; simpa using hne)]
    exact hs
  · intro h
    simp only [combineEchFailures, hE]
    rw [if_pos h]
  · simp only [combineEchFailures, hE]

/-- A failed JSON-mode attempt with a JSON response shape. -/
def c7AttemptJson : DohProviderModeResult :=
  { status := some 502, ok := false, ips := [], latency_ms := some 10,
    response_format := some .json, content_type := some "application/dns-json",
    raw := none, error := some "json 失败", mode := .json }

/-- A failed wire-mode attempt with a wire response shape and no status. -/
def c7AttemptWire : DohProviderModeResult :=
  { status := none, ok := false, ips := [], latency_ms := none,
    response_format := some .wire,
    content_type := some "application/dns-message",
    raw := none, error := some "wire 失败", mode := .wire }

/-- An ECH attempt pair for the witness. -/
def c7EchA : EchProviderResult :=
  { found := false, record := none, status := some 500, latency_ms := some 7,
    attempted_formats := [.json], response_format := some .json,
    content_type := some "application/dns-json", raw := none,
    error := some "ech json 失败" }

def c7EchB : EchProviderResult :=
  { found := false, record := none, status := none, latency_ms := none,
    attempted_formats := [.wire], response_format := some .wire,
    content_type := some "application/dns-message", raw := none,
    error := some "ech wire 失败" }

/-- Witness for C7 at a concrete two-attempt list. -/
theorem combineFailures_merge_rules_witness :
    (combineDohFailures [c7AttemptJson, c7AttemptWire]).status =
      [c7AttemptJson, c7AttemptWire].reverse.findSome? (fun item => item.status) ∧
    (combineDohFailures [c7AttemptJson, c7AttemptWire]).response_format =
      some .wire ∧
    (combineEchFailures [c7EchA, c7EchB]).error =
      some (joinedErrors ([c7EchA, c7EchB].filterMap fun item => item.error)
        "HTTPS 记录查询失败。") :=
  ⟨(combineFailures_merge_rules [c7AttemptJson, c7AttemptWire] [c7EchA, c7EchB]
      c7AttemptWire c7EchB rfl rfl).1,
   (combineFailures_merge_rules [c7AttemptJson, c7AttemptWire] [c7EchA, c7EchB]
      c7AttemptWire c7EchB rfl rfl).2.2.1 .wire rfl (by decide),
   (combineFailures_merge_rules [c7AttemptJson, c7AttemptWire] [c7EchA, c7EchB]
      c7AttemptWire c7EchB rfl rfl).2.2.2.2.2.2.2.2.2.2.2.2⟩

/-- Counterexample for C7 as literally stated: with a JSON-shaped first
attempt and a wire-shaped last attempt, the merged `response_shape` and
`content_type` are those of the LAST attempt, not the claimed first
non-unknown / first non-null in forward order. -/
theorem combineFailures_merge_rules_counterexample :
    (combineDohFailures [c7AttemptJson, c7AttemptWire]).response_format =
      some DohResponseFormat.wire ∧
    claimForwardShape [c7AttemptJson, c7AttemptWire] =
      some DohResponseFormat.json ∧
    some DohResponseFormat.wire ≠ some DohResponseFormat.json ∧
    (combineDohFailures [c7AttemptJson, c7AttemptWire]).content_type =
      some "application/dns-message" ∧
    forwardContentType ([c7AttemptJson, c7AttemptWire].map fun item =>
      item.content_type) = some "application/dns-json" :=
  ⟨rfl, rfl, by decide, rfl, rfl⟩

theorem jsDedupAux_mem [DecidableEq α] (l : List α) :
    ∀ (seen : List α) (x : α), x ∈ jsDedupAux seen l ↔ x ∈ l ∧ x ∉ seen := by
  induction l with
  | nil => intro seen x; simp [jsDedupAux]
  | cons a t ih =>
    intro seen x
    rw [jsDedupAux]
    by_cases h : seen.contains a
    · rw [if_pos h]
      rw [ih]
      have ha : a ∈ seen := by simpa using h
      constructor
      · rintro ⟨hx, hns⟩; exact ⟨List.mem_cons_of_mem _ hx, hns⟩
      · rintro ⟨hx, hns⟩
        rcases List.mem_cons.mp hx with rfl | hx
        · exact absurd ha hns
        · exact ⟨hx, hns⟩
    · rw [if_neg h]
      have ha : a ∉ seen := by simpa using h
      constructor
      · intro hx
        rcases List.mem_cons.mp hx with rfl | hx
        · exact ⟨List.mem_cons_self _ _, ha⟩
        · have := (ih (a :: seen) x).mp hx
          refine ⟨List.mem_cons_of_mem _ this.1, fun hs => this.2 (List.mem_cons_of_mem _ hs)⟩
      · rintro ⟨hx, hns⟩
        rcases List.mem_cons.mp hx with rfl | hx
        · exact List.mem_cons_self _ _
        · by_cases hxa : x = a
          · subst hxa; exact List.mem_cons_self _ _
          · exact List.mem_cons_of_mem _ ((ih (a :: seen) x).mpr
              ⟨hx, fun hs => (List.mem_cons.mp hs).elim hxa hns⟩)

theorem jsDedupAux_nodup [DecidableEq α] (l : List α) :
    ∀ seen : List α, (jsDedupAux seen l).Nodup := by
  induction l with
  | nil => intro seen; simp [jsDedupAux]
  | cons a t ih =>
    intro seen
    rw [jsDedupAux]
    by_cases h : seen.contains a
    · rw [if_pos h]; exact ih seen
    · rw [if_neg h]
      refine List.Nodup.cons ?_ (ih (a :: seen))
      intro hmem
      exact ((jsDedupAux_mem t (a :: seen) a).mp hmem).2 (List.mem_cons_self _ _)

theorem jsDedup_mem [DecidableEq α] (l : List α) (x : α) :
    x ∈ jsDedup l ↔ x ∈ l := by
  rw [jsDedup, jsDedupAux_mem]; simp

theorem jsDedup_toFinset [DecidableEq α] (l : List α) :
    (jsDedup l).toFinset = l.toFinset := by
  ext x; simp [List.mem_toFinset, jsDedup_mem]

theorem jsDedup_length [DecidableEq α] (l : List α) :
    (jsDedup l).length = l.toFinset.card := by
  rw [← jsDedup_toFinset]
  exact (List.toFinset_card_of_nodup (jsDedupAux_nodup l [])).symm

/-- Source `setsAreEqual(new Set(a), new Set(b))`: same size, and every
member of `a` is a member of `b`. -/
def setsAreEqual (a b : List String) : Bool :=
  (jsDedup a).length == (jsDedup b).length &&
    (jsDedup a).all (fun x => (jsDedup b).contains x)

theorem setsAreEqual_iff_toFinset (a b : List String) :
    setsAreEqual a b = true ↔ a.toFinset = b.toFinset := by
  rw [setsAreEqual, Bool.and_eq_true, beq_iff_eq, List.all_eq_true]
  constructor
  · rintro ⟨hlen, hall⟩
    have hsub : a.toFinset ⊆ b.toFinset := by
      intro x hx
      rw [List.mem_toFinset] at hx ⊢
      have hxd : x ∈ jsDedup a := (jsDedup_mem a x).mpr hx
      have := hall x hxd
      have : x ∈ jsDedup b := by simpa using this
      exact (jsDedup_mem b x).mp this
    refine Finset.eq_of_subset_of_card_le hsub ?_
    rw [← jsDedup_length, ← jsDedup_length, hlen]
  · intro h
    refine ⟨by rw [jsDedup_length, jsDedup_length, h], ?_⟩
    intro x hx
    have : x ∈ a := (jsDedup_mem a x).mp hx
    have hxb : x ∈ b := by
      rw [← List.mem_toFinset, h, List.mem_toFinset] at this
      exact this
    simpa using (jsDedup_mem b x).mpr hxb

/-- `targetResult.ok && refResult.ok && setsAreEqual(...)` (source lines
178-179). -/
def dohMatches (target ref : DohProviderResult) : Bool :=
  target.ok && ref.ok && setsAreEqual target.ips ref.ips

/-- The status/message derivation block of source `runDohCheck` (lines
182-199), before the optional ECH-comparison note is appended. -/
def deriveDohStatus (target cloudflare google : DohProviderResult) :
    DohStatus × String :=
  if !target.ok then
    (.failure, target.error.getD "目标 DoH 服务查询失败。")
  else if dohMatches target cloudflare && dohMatches target google then
    (.success, "目标 DoH 服务返回的结果与 Cloudflare 和 Google 完全一致。")
  else if dohMatches target cloudflare || dohMatches target google then
    (.partialMatch,
      if dohMatches target cloudflare then
        "目标 DoH 服务与 Cloudflare 结果一致，但与 Google 不完全一致。"
      else "目标 DoH 服务与 Google 结果一致，但与 Cloudflare 不完全一致。")
  else (.failure, "目标 DoH 服务返回的结果与 Cloudflare 和 Google 均不一致。")

/-- C2: the A-record status matrix.  Set comparison is exact string-set
equality, order irrelevant (first conjunct characterizes `setsAreEqual` as
`toFinset` equality).  If the target is not ok the status is `failure` with
the target's own error; otherwise references are compared only if they are
themselves ok: both equal → success, exactly one equal → partial_match with
a message naming the matching reference, neither → failure with the generic
mismatch message. -/
theorem runDohCheck_status_matrix (t cf g : DohProviderResult) :
    (∀ a b : List String, setsAreEqual a b = true ↔ a.toFinset = b.toFinset) ∧
    (∀ e, t.ok = false → t.error = some e →
      deriveDohStatus t cf g = (.failure, e)) ∧
    (t.ok = true →
      ((cf.ok && setsAreEqual t.ips cf.ips) = true →
        (g.ok && setsAreEqual t.ips g.ips) = true →
        deriveDohStatus t cf g =
          (.success, "目标 DoH 服务返回的结果与 Cloudflare 和 Google 完全一致。")) ∧
      ((cf.ok && setsAreEqual t.ips cf.ips) = true →
        (g.ok && setsAreEqual t.ips g.ips) = false →
        deriveDohStatus t cf g =
          (.partialMatch, "目标 DoH 服务与 Cloudflare 结果一致，但与 Google 不完全一致。")) ∧
      ((cf.ok && setsAreEqual t.ips cf.ips) = false →
        (g.ok && setsAreEqual t.ips g.ips) = true →
        deriveDohStatus t cf g =
          (.partialMatch, "目标 DoH 服务与 Google 结果一致，但与 Cloudflare 不完全一致。")) ∧
      ((cf.ok && setsAreEqual t.ips cf.ips) = false →
        (g.ok && setsAreEqual t.ips g.ips) = false →
        deriveDohStatus t cf g =
          (.failure, "目标 DoH 服务返回的结果与 Cloudflare 和 Google 均不一致。"))) := by
  refine ⟨setsAreEqual_iff_toFinset, ?_, ?_⟩
  · intro e hok herr
    simp [deriveDohStatus, hok, herr]
  · intro hok
    have hc : dohMatches t cf = (cf.ok && setsAreEqual t.ips cf.ips) := by
      rw [dohMatches, hok, Bool.true_and]
    have hg2 : dohMatches t g = (g.ok && setsAreEqual t.ips g.ips) := by
      rw [dohMatches, hok, Bool.true_and]
    refine ⟨?_, ?_, ?_, ?_⟩ <;> intro hmc hmg <;>
      simp [deriveDohStatus, hok, hc, hg2, hmc, hmg]

/-- A fully-ok target provider result with one A record. -/
def c2Target : DohProviderResult :=
  { status := some 200, ok := true, ips := ["93.184.216.34"],
    latency_ms := some 5, response_format := some .json,
    content_type := some "application/dns-json", raw := none, error := none,
    attempted_formats := [.json, .wire], mode_results := [] }

/-- A reference result with the same IP set. -/
def c2Cloudflare : DohProviderResult :=
  { c2Target with ips := ["93.184.216.34"] }

/-- A reference result with a different IP set. -/
def c2Google : DohProviderResult :=
  { c2Target with ips := ["1.2.3.4"] }

/-- A failed target result carrying its own error. -/
def c2Failed : DohProviderResult :=
  { c2Target with ok := false, ips := [], error := some "目标超时" }

/-- Witness for C2: a failed target yields `failure` with its own error;
the matrix target {93.184.216.34} / refA equal / refB different yields
`partial_match` naming Cloudflare. -/
theorem runDohCheck_status_matrix_witness :
    deriveDohStatus c2Failed c2Cloudflare c2Google = (.failure, "目标超时") ∧
    deriveDohStatus c2Target c2Cloudflare c2Google =
      (.partialMatch, "目标 DoH 服务与 Cloudflare 结果一致，但与 Google 不完全一致。") :=
  ⟨(runDohCheck_status_matrix c2Failed c2Cloudflare c2Google).2.1 "目标超时" rfl rfl,
   ((runDohCheck_status_matrix c2Target c2Cloudflare c2Google).2.2 rfl).2.1
     (by decide) (by decide)⟩

/-- JavaScript truthiness test for the nullable ECH config strings:
`!value` is true for `null`/absent and for the empty string. -/
def strFalsy (o : Option String) : Bool := o.getD "" == ""

/-- Source `computeEchMatch(target, reference, notes, label)`: returns the
three-valued match and the single note it appends. -/
def computeEchMatch (target reference : Option String) (label : String) :
    Option Bool × String :=
  if strFalsy target && strFalsy reference then
    (none, label ++ " 和目标 DoH 均未返回 ECH 配置。")
  else if strFalsy target then
    (some false, "目标 DoH 未返回 ECH 配置，但 " ++ label ++ " 返回了配置。")
  else if strFalsy reference then
    (none, label ++ " 未返回 ECH 配置，无法比对。")
  else if target == reference then
    (some true, "目标 DoH 与 " ++ label ++ " 的 ECH 配置一致。")
  else (some false, "目标 DoH 与 " ++ label ++ " 的 ECH 配置不一致。")

/-- The `consistent` derivation of source `runDohEchComparison` (lines
273-278). -/
def echConsistent (mc mg : Option Bool) : Option Bool :=
  if mc ≠ none ∧ mg ≠ none then some (mc.getD false && mg.getD false)
  else if mc ≠ none ∨ mg ≠ none then
    if mc = some false ∨ mg = some false then some false else none
  else none

/-- The comparison core of source `runDohEchComparison`: both reference
comparisons (Cloudflare first, then Google), the derived `consistent`
value, and the accumulated notes in push order. -/
def runDohEchComparisonCore (targetEch cloudflareEch googleEch : Option String) :
    Option Bool × Option Bool × Option Bool × List String :=
  (( computeEchMatch targetEch cloudflareEch "Cloudflare").1,
   (computeEchMatch targetEch googleEch "Google").1,
   echConsistent (computeEchMatch targetEch cloudflareEch "Cloudflare").1
     (computeEchMatch targetEch googleEch "Google").1,
   [(computeEchMatch targetEch cloudflareEch "Cloudflare").2,
    (computeEchMatch targetEch googleEch "Google").2])

/-- C3: `consistent` is `some true` iff both per-reference results are
non-null and true, `some false` iff either is definitively false, and
`none` otherwise; and in the concrete scenario where the target's ECH
string equals reference A's ("AEF...") while reference B's is absent,
`matches_reference_a = true`, `matches_reference_b = null`,
`consistent = null`, with one note per comparison naming its reference,
Cloudflare's note before Google's. -/
theorem computeEchMatch_consistency :
    (∀ mc mg : Option Bool,
      (echConsistent mc mg = some true ↔ (mc = some true ∧ mg = some true)) ∧
      (echConsistent mc mg = some false ↔ (mc = some false ∨ mg = some false)) ∧
      (echConsistent mc mg = none ↔
        ¬(mc = some true ∧ mg = some true) ∧
        ¬(mc = some false ∨ mg = some false))) ∧
    runDohEchComparisonCore (some "AEF...") (some "AEF...") none =
      (some true, none, none,
        ["目标 DoH 与 Cloudflare 的 ECH 配置一致。",
         "Google 未返回 ECH 配置，无法比对。"]) := by
  constructor
  · decide
  · rfl

/-- Witness for C3 extracting the `some true` direction at a concrete
pair of match values. -/
theorem computeEchMatch_consistency_witness :
    echConsistent (some true) (some true) = some true :=
  ((computeEchMatch_consistency.1 (some true) (some true)).1).mpr ⟨rfl, rfl⟩

/-- Source `fetchHttpsRecord(endpoint, domain, timeout)` over an oracle
`perform` standing for `performHttpsRequest` in each mode.  The second
component records which modes were actually requested (the HTTP calls
issued).  `performHttpsRequest` always returns an object (the source's
`if (jsonAttempt)` truthiness test never fails), so the source's final
"no attempts" fallback is unreachable and the non-short-circuit path always
combines exactly the two attempts. -/
def fetchHttpsRecord (perform : DohRequestMode → EchProviderResult) :
    EchProviderResult × List DohRequestMode :=
  if (perform .json).found then (perform .json, [.json])
  else if (perform .wire).found then (perform .wire, [.json, .wire])
  else (combineEchFailures [perform .json, perform .wire], [.json, .wire])

/-- C5: the HTTPS/ECH executor tries JSON first and short-circuits on an
ECH find without issuing the wire-mode call; otherwise it tries wire mode
and returns immediately on a find; and when neither finds ECH the two
attempts are merged by the ECH failure combiner. -/
theorem fetchHttpsRecord_short_circuit
    (perform : DohRequestMode → EchProviderResult) :
    ((perform .json).found = true →
      fetchHttpsRecord perform = (perform .json, [.json])) ∧
    ((perform .json).found = false → (perform .wire).found = true →
      fetchHttpsRecord perform = (perform .wire, [.json, .wire])) ∧
    ((perform .json).found = false → (perform .wire).found = false →
      fetchHttpsRecord perform =
        (combineEchFailures [perform .json, perform .wire],
          [.json, .wire])) := by
  refine ⟨?_, ?_, ?_⟩
  · intro hj; simp [fetchHttpsRecord, hj]
  · intro hj hw; simp [fetchHttpsRecord, hj, hw]
  · intro hj hw; simp [fetchHttpsRecord, hj, hw]

/-- An ECH result that found a config. -/
def c5Found : EchProviderResult :=
  { found := true, record := some "ech=AEF", status := some 200,
    latency_ms := some 3, attempted_formats := [.json],
    response_format := some .json,
    content_type := some "application/dns-json", raw := none, error := none }

/-- An ECH result that did not find a config. -/
def c5NotFound : EchProviderResult :=
  { found := false, record := none, status := some 200, latency_ms := some 4,
    attempted_formats := [.wire], response_format := some .wire,
    content_type := some "application/dns-message", raw := none,
    error := some "未发现包含 ECH 参数的 HTTPS 记录。" }

/-- The oracle for the witness: JSON finds ECH, wire would not. -/
def c5Perform : DohRequestMode → EchProviderResult
  | .json => c5Found
  | .wire => c5NotFound

/-- Witness for C5: with a JSON attempt that finds ECH, the executor
returns it having issued only the JSON call. -/
theorem fetchHttpsRecord_short_circuit_witness :
    fetchHttpsRecord c5Perform = (c5Found, [.json]) :=
  (fetchHttpsRecord_short_circuit c5Perform).1 rfl

/-- Does `needle` occur at the head of `hay`? -/
def leadsWith : List Char → List Char → Bool
  | _, [] => true
  | [], _ :: _ => false
  | a :: as, b :: bs => a == b && leadsWith as bs

/-- Substring occurrence test over char lists (`String.includes`). -/
def hasSub : List Char → List Char → Bool
  | [], needle => needle.isEmpty
  | a :: t, needle => leadsWith (a :: t) needle || hasSub t needle

/-- JavaScript `hay.includes(needle)`. -/
def strIncludes (hay needle : String) : Bool := hasSub hay.toList needle.toList

/-- ASCII lower-casing of one character (`toLowerCase` on the ASCII range;
the content-type strings dispatched on are ASCII). -/
def charToLower (c : Char) : Char :=
  if 'A' ≤ c ∧ c ≤ 'Z' then Char.ofNat (c.toNat + 32) else c

/-- `s.toLowerCase()` over the character list. -/
def strToLower (s : String) : String := String.mk (s.toList.map charToLower)

/-- Split a character list at every occurrence of `sep`. -/
def splitChar (sep : Char) : List Char → List (List Char)
  | [] => [[]]
  | c :: rest =>
    if c == sep then [] :: splitChar sep rest
    else
      ((c :: (splitChar sep rest).headD []) :: (splitChar sep rest).tail)

/-- Source `isJsonContentType`. -/
def isJsonContentType (contentType : Option String) : Bool :=
  match contentType with
  | none => false
  | some ct =>
    strIncludes (strToLower ct) "application/dns-json" ||
    strIncludes (strToLower ct) "application/json" ||
    strIncludes (strToLower ct) "text/json"

/-- Source `isTextContentType`. -/
def isTextContentType (contentType : Option String) : Bool :=
  match contentType with
  | none => false
  | some ct =>
    strIncludes (strToLower ct) "text/" ||
    strIncludes (strToLower ct) "application/text" ||
    strIncludes (strToLower ct) "text/plain"

/-- Object field lookup; JSON.parse keeps the last duplicate key, hence the
reversed search. -/
def jLookup (fields : List (String × JVal)) (k : String) : Option JVal :=
  (fields.reverse.find? (fun p => p.1 == k)).map (fun p => p.2)

/-- Source `extractAnswerArray`: the `Answer` field when the body is an
object carrying an array there (a top-level array has no `Answer` field and
yields null, like any non-object). -/
def extractAnswerArray : JVal → Option (List JVal)
  | .obj fields =>
    match jLookup fields "Answer" with
    | some (.arr xs) => some xs
    | _ => none
  | _ => none

def isDigitChar (c : Char) : Bool := 48 ≤ c.toNat && c.toNat ≤ 57

def isHexChar (c : Char) : Bool :=
  isDigitChar c || ('a' ≤ c && c ≤ 'f') || ('A' ≤ c && c ≤ 'F')

/-- `IP_V4_REGEX` = `^(?:\d(1,3)\.)(3)\d(1,3)$`: exactly four dot-separated
groups of 1-3 digits. -/
def isIpv4Lit (s : String) : Bool :=
  (splitChar '.' s.toList).length == 4 &&
    (splitChar '.' s.toList).all (fun p =>
      1 ≤ p.length && p.length ≤ 3 && p.all isDigitChar)

/-- `IP_V6_REGEX`: exactly eight colon-separated groups of 1-4 hex digits. -/
def isIpv6Lit (s : String) : Bool :=
  (splitChar ':' s.toList).length == 8 &&
    (splitChar ':' s.toList).all (fun p =>
      1 ≤ p.length && p.length ≤ 4 && p.all isHexChar)

/-- Source `isIpAddress`. -/
def isIpAddress (s : String) : Bool := isIpv4Lit s || isIpv6Lit s

/-- Source `extractIpsFromAnswer(json)`: every answer object's `data`
string that is a syntactically valid IP literal, deduplicated in insertion
order. -/
def extractIpsFromAnswer (j : JVal) : List String :=
  match extractAnswerArray j with
  | none => []
  | some answers =>
    jsDedup (answers.filterMap fun a =>
      match a with
      | .obj fields =>
        match jLookup fields "data" with
        | some (.str d) => if isIpAddress d then some d else none
        | _ => none
      | _ => none)

/-- Source `normalizeErrorMessage` restricted to string reasons: a falsy
(empty) reason becomes the generic unknown-error message. -/
def normalizeErrorMessage (e : String) : String := if e = "" then "未知错误" else e

/-- `response.ok`: HTTP status in [200, 300). -/
def responseOk (status : Nat) : Bool := 200 ≤ status && status < 300

/-- The observable face of one HTTP response, with the outcome each body
consumption method would produce (`response.json()` may fail;
`response.text()`/`response.arrayBuffer()` yield the body as text/bytes). -/
structure DohNetResponse where
  status : Nat
  contentType : Option String
  jsonBody : Except String JVal
  textBody : String
  bytesBody : List Nat
  latency : Nat

/-- Outcome of `fetch`: a network-level failure (timeout, abort, DNS error)
or a response. -/
inductive DohFetchOutcome
  | netFail (e : String)
  | got (r : DohNetResponse)

/-- The 200-character snippet taken of a text response (modelled at the
code-point level). -/
def textSnippetOf (text : String) : String :=
  if text.toList.length > 200 then String.mk (text.toList.take 200) ++ "…"
  else text

/-- Source `performDohRequest(endpoint, name, recordType, timeout, mode)`:
URL construction (which can throw before any network call) and the network
round-trip are passed in as oracles; the rest mirrors the source's
content-type dispatch and per-branch result records. -/
def performDohRequest (urlBuild : Except String Unit)
    (outcome : DohFetchOutcome) (mode : DohRequestMode) : DohProviderModeResult :=
  match urlBuild with
  | .error e =>
    { mode := mode, status := none, ok := false, ips := [], latency_ms := none,
      response_format := some .unknown, content_type := none, raw := none,
      error := some (normalizeErrorMessage e) }
  | .ok _ =>
    match outcome with
    | .netFail e =>
      { mode := mode, status := none, ok := false, ips := [], latency_ms := none,
        response_format := some .unknown, content_type := none, raw := none,
        error := some (normalizeErrorMessage e) }
    | .got r =>
      if isJsonContentType r.contentType then
        match r.jsonBody with
        | .ok j =>
          { mode := mode, status := some r.status,
            ok := responseOk r.status && !(extractIpsFromAnswer j).isEmpty,
            ips := extractIpsFromAnswer j, latency_ms := some r.latency,
            response_format := some .json, content_type := r.contentType,
            raw := some (.jsonVal j),
            error :=
              if responseOk r.status && !(extractIpsFromAnswer j).isEmpty then none
              else some "未在响应中找到有效的 A 记录。" }
        | .error e =>
          { mode := mode, status := some r.status, ok := false, ips := [],
            latency_ms := some r.latency, response_format := some .json,
            content_type := r.contentType, raw := some .nullRaw,
            error := some ("解析 JSON 响应失败：" ++ normalizeErrorMessage e) }
      else if isTextContentType r.contentType then
        { mode := mode, status := some r.status, ok := false, ips := [],
          latency_ms := some r.latency, response_format := some .text,
          content_type := r.contentType,
          raw := some (.textSnippet (textSnippetOf r.textBody)),
          error :=
            if textSnippetOf r.textBody ≠ "" then
              some ("服务器返回文本响应：" ++ textSnippetOf r.textBody)
            else some "服务器返回了文本响应。" }
      else
        match extractIpsFromDnsMessage r.bytesBody with
        | .ok ips =>
          { mode := mode, status := some r.status,
            ok := responseOk r.status && !ips.isEmpty, ips := ips,
            latency_ms := some r.latency, response_format := some .wire,
            content_type := r.contentType,
            raw := some (.dnsMessage r.contentType (bytesToBase64 r.bytesBody)),
            error :=
              if responseOk r.status && !ips.isEmpty then none
              else some "未在响应中找到有效的 A/AAAA 记录。" }
        | .error e =>
          { mode := mode, status := some r.status, ok := false, ips := [],
            latency_ms := some r.latency, response_format := some .wire,
            content_type := r.contentType,
            raw := some (.dnsMessage r.contentType (bytesToBase64 r.bytesBody)),
            error := some ("解析 DNS 二进制报文失败：" ++ normalizeErrorMessage e) }

theorem performDohRequest_mode (u : Except String Unit) (o : DohFetchOutcome)
    (m : DohRequestMode) : (performDohRequest u o m).mode = m := by
  cases u with
  | error e => rfl
  | ok u =>
    cases o with
    | netFail e => rfl
    | got r =>
      simp only [performDohRequest]
      split
      · split <;> rfl
      · split
        · rfl
        · split <;> rfl

theorem performDohRequest_ok_ips (u : Except String Unit) (o : DohFetchOutcome)
    (m : DohRequestMode) :
    (performDohRequest u o m).ok = true → (performDohRequest u o m).ips ≠ [] := by
  cases u with
  | error e => intro h; exact absurd h (by simp [performDohRequest])
  | ok u =>
    cases o with
    | netFail e => intro h; exact absurd h (by simp [performDohRequest])
    | got r =>
      simp only [performDohRequest]
      split
      · split
        · intro h hnil
          replace h : (responseOk r.status &&
            !(extractIpsFromAnswer _).isEmpty) = true := h
          replace hnil : extractIpsFromAnswer _ = [] := hnil
          rw [hnil] at h
          simp at h
        · intro h; exact absurd h (by simp)
      · split
        · intro h; exact absurd h (by simp)
        · split
          · rename_i ips heq
            intro h hnil
            replace h : (responseOk r.status && !ips.isEmpty) = true := h
            replace hnil : ips = [] := hnil
            rw [hnil] at h
            simp at h
          · intro h; exact absurd h (by simp)

/-- Source `summarizeDohModeResult`: copy the successful attempt's fields
(minus `mode`) and attach the attempt list. -/
def summarizeDohModeResult (successful : DohProviderModeResult)
    (attempts : List DohProviderModeResult) : DohProviderResult :=
  { toDohBaseResult := successful.toDohBaseResult,
    attempted_formats := attempts.map (fun item => item.mode),
    mode_results := attempts }

/-- The `for (const mode of ["json", "wire"])` attempt loop of source
`fetchDohAnswer`: both attempts are performed unconditionally. -/
def dohModeResults (urlBuild : DohRequestMode → Except String Unit)
    (outcome : DohRequestMode → DohFetchOutcome) : List DohProviderModeResult :=
  [performDohRequest (urlBuild .json) (outcome .json) .json,
   performDohRequest (urlBuild .wire) (outcome .wire) .wire]

/-- Source `fetchDohAnswer(endpoint, name, recordType, timeout)`: the first
`ok` attempt wins (else the failure combiner), and `attempted_formats` /
`mode_results` are overwritten with the full attempt list at the end. -/
def fetchDohAnswer (urlBuild : DohRequestMode → Except String Unit)
    (outcome : DohRequestMode → DohFetchOutcome) : DohProviderResult :=
  match (dohModeResults urlBuild outcome).find? (fun item => item.ok) with
  | some successful =>
    { summarizeDohModeResult successful (dohModeResults urlBuild outcome) with
      attempted_formats :=
        (dohModeResults urlBuild outcome).map (fun item => item.mode),
      mode_results := dohModeResults urlBuild outcome }
  | none =>
    { combineDohFailures (dohModeResults urlBuild outcome) with
      attempted_formats :=
        (dohModeResults urlBuild outcome).map (fun item => item.mode),
      mode_results := dohModeResults urlBuild outcome }

/-- The per-provider settlement in source `runDohCheck` (lines 155-172):
a fulfilled query keeps its result; a rejected one synthesizes a failure
record — with an EMPTY `attempted_formats`. -/
def settleDohEntry (entry : Except String DohProviderResult) : DohProviderResult :=
  match entry with
  | .ok r => r
  | .error reason =>
    { status := none, ok := false, ips := [], latency_ms := none,
      response_format := some .unknown, content_type := none, raw := none,
      error := some (normalizeErrorMessage reason),
      attempted_formats := [], mode_results := [] }

theorem dohModeResults_modes (uB : DohRequestMode → Except String Unit)
    (oc : DohRequestMode → DohFetchOutcome) :
    (dohModeResults uB oc).map (fun item => item.mode) = [.json, .wire] := by
  simp [dohModeResults, performDohRequest_mode]

theorem fetchDohAnswer_attempted (uB : DohRequestMode → Except String Unit)
    (oc : DohRequestMode → DohFetchOutcome) :
    (fetchDohAnswer uB oc).attempted_formats = [.json, .wire] := by
  rw [fetchDohAnswer]
  split <;> simpa using dohModeResults_modes uB oc

theorem fetchDohAnswer_ok_ips (uB : DohRequestMode → Except String Unit)
    (oc : DohRequestMode → DohFetchOutcome) :
    (fetchDohAnswer uB oc).ok = true → (fetchDohAnswer uB oc).ips ≠ [] := by
  rw [fetchDohAnswer]
  split
  · rename_i s hf
    intro h hnil
    replace h : s.ok = true := h
    replace hnil : s.ips = [] := hnil
    have hmem := List.mem_of_find?_eq_some hf
    simp only [dohModeResults, List.mem_cons, List.mem_singleton,
      List.not_mem_nil, or_false] at hmem
    rcases hmem with rfl | rfl
    · exact performDohRequest_ok_ips _ _ _ h hnil
    · exact performDohRequest_ok_ips _ _ _ h hnil
  · intro h
    replace h : false = true := h
    exact absurd h (by simp)

/-- C4: for an A-record check the executor performs both a JSON-mode and a
wire-mode attempt unconditionally (both appear in `mode_results`, and
`attempted_encodings` always equals `[json, wire]` — even when the JSON
attempt succeeds), and the reported result's payload is the first
successful attempt in encoding order `[json, wire]`, falling back to the
failure combiner over both attempts when neither succeeds. -/
theorem fetchDohAnswer_always_both (uB : DohRequestMode → Except String Unit)
    (oc : DohRequestMode → DohFetchOutcome) :
    ((fetchDohAnswer uB oc).attempted_formats = [.json, .wire]) ∧
    ((fetchDohAnswer uB oc).mode_results =
      [performDohRequest (uB .json) (oc .json) .json,
       performDohRequest (uB .wire) (oc .wire) .wire]) ∧
    ((performDohRequest (uB .json) (oc .json) .json).ok = true →
      (fetchDohAnswer uB oc).toDohBaseResult =
        (performDohRequest (uB .json) (oc .json) .json).toDohBaseResult) ∧
    ((performDohRequest (uB .json) (oc .json) .json).ok = false →
      (performDohRequest (uB .wire) (oc .wire) .wire).ok = true →
      (fetchDohAnswer uB oc).toDohBaseResult =
        (performDohRequest (uB .wire) (oc .wire) .wire).toDohBaseResult) ∧
    ((performDohRequest (uB .json) (oc .json) .json).ok = false →
      (performDohRequest (uB .wire) (oc .wire) .wire).ok = false →
      (fetchDohAnswer uB oc).toDohBaseResult =
        (combineDohFailures
          [performDohRequest (uB .json) (oc .json) .json,
           performDohRequest (uB .wire) (oc .wire) .wire]).toDohBaseResult) := by
  refine ⟨fetchDohAnswer_attempted uB oc, ?_, ?_, ?_, ?_⟩
  · rw [fetchDohAnswer]
    split <;> rfl
  · intro hj
    have hfind : (dohModeResults uB oc).find? (fun item => item.ok) =
        some (performDohRequest (uB .json) (oc .json) .json) := by
      rw [dohModeResults]
      exact List.find?_cons_of_pos _ hj
    rw [fetchDohAnswer, hfind]
    rfl
  · intro hj hw
    have hfind : (dohModeResults uB oc).find? (fun item => item.ok) =
        some (performDohRequest (uB .wire) (oc .wire) .wire) := by
      rw [dohModeResults, List.find?_cons_of_neg _ (by simp [hj])]
      exact List.find?_cons_of_pos _ hw
    rw [fetchDohAnswer, hfind]
    rfl
  · intro hj hw
    have hfind : (dohModeResults uB oc).find? (fun item => item.ok) = none := by
      rw [dohModeResults, List.find?_cons_of_neg _ (by simp [hj]),
        List.find?_cons_of_neg _ (by simp [hw])]
      rfl
    rw [fetchDohAnswer, hfind]
    rfl

/-- A JSON response carrying one A record, for the C4/C10 witnesses. -/
def c4Response : DohNetResponse :=
  { status := 200, contentType := some "application/dns-json",
    jsonBody := .ok (.obj [("Answer", .arr [.obj [("data", .str "93.184.216.34")]])]),
    textBody := "", bytesBody := [], latency := 12 }

def c4UrlBuild : DohRequestMode → Except String Unit := fun _ => .ok ()

def c4Outcome : DohRequestMode → DohFetchOutcome
  | .json => .got c4Response
  | .wire => .netFail "超时"

/-- Witness for C4: with a succeeding JSON attempt the result still reports
`attempted_encodings = [json, wire]` and carries the JSON attempt's
payload. -/
theorem fetchDohAnswer_always_both_witness :
    (fetchDohAnswer c4UrlBuild c4Outcome).attempted_formats = [.json, .wire] ∧
    (fetchDohAnswer c4UrlBuild c4Outcome).toDohBaseResult =
      (performDohRequest (c4UrlBuild .json) (c4Outcome .json) .json).toDohBaseResult :=
  ⟨(fetchDohAnswer_always_both c4UrlBuild c4Outcome).1,
   (fetchDohAnswer_always_both c4UrlBuild c4Outcome).2.2.1 rfl⟩

/-- C10 (amended): once a provider's query promise fulfills, the produced
result has `attempted_encodings = [json, wire]` (never empty), and
`ok = true` implies the extracted IP list is non-empty (this holds for
every individual attempt and for the provider summary).  The deviation from
the claim as stated: the defensive handler for a REJECTED query promise
synthesizes a result with `ok = false` and an EMPTY `attempted_formats`,
so the non-emptiness part does not extend to rejected queries. -/
theorem providerResult_invariants (uB : DohRequestMode → Except String Unit)
    (oc : DohRequestMode → DohFetchOutcome) :
    ((fetchDohAnswer uB oc).attempted_formats = [.json, .wire]) ∧
    ((fetchDohAnswer uB oc).ok = true → (fetchDohAnswer uB oc).ips ≠ []) ∧
    (∀ (u : Except String Unit) (o : DohFetchOutcome) (m : DohRequestMode),
      (performDohRequest u o m).ok = true → (performDohRequest u o m).ips ≠ []) ∧
    (∀ r, settleDohEntry (.ok r) = r) ∧
    (∀ e, (settleDohEntry (.error e)).ok = false ∧
      (settleDohEntry (.error e)).ips = []) :=
  ⟨fetchDohAnswer_attempted uB oc, fetchDohAnswer_ok_ips uB oc,
   performDohRequest_ok_ips, fun _ => rfl, fun _ => ⟨rfl, rfl⟩⟩

/-- Witness for C10 at the concrete succeeding JSON query. -/
theorem providerResult_invariants_witness :
    (fetchDohAnswer c4UrlBuild c4Outcome).attempted_formats = [.json, .wire] ∧
    (fetchDohAnswer c4UrlBuild c4Outcome).ips ≠ [] :=
  ⟨(providerResult_invariants c4UrlBuild c4Outcome).1,
   (providerResult_invariants c4UrlBuild c4Outcome).2.1 rfl⟩

/-- Counterexample for C10 as literally stated: the settlement of a
REJECTED provider query produces a result whose `attempted_formats` is
empty, contradicting "attempted_encodings is non-empty ... including
providers whose query rejected". -/
theorem providerResult_invariants_counterexample :
    (settleDohEntry (.error "连接被拒绝")).attempted_formats = ([] : List DohRequestMode) ∧
    ([] : List DohRequestMode) ≠ [.json, .wire] :=
  ⟨rfl, by decide⟩

